import Mathlib

/-!
Verification of the CapSense capacitive-touch sensing engine (CapSense.c).

The C source is shallowly embedded: the per-channel arrays become total
functions over channel indices, the 16-bit unsigned CapSenseReading
arithmetic is Nat arithmetic taken mod 2^16, the 8-bit tick arithmetic is
Nat arithmetic mod 2^8, and the interrupt body and the calibration poll
function become explicit state-transition functions.

Constants that live in the headers CapSense.h / CapSense-consts.h (which are
not part of the repository sources) are carried as fields of a Config
structure, or, where a concrete value is forced, as modelled constants with
a doc comment saying so.
-/

namespace CapSense

/-- Modulus of the 16-bit unsigned CapSenseReading type. -/
def WORD : Nat := 65536

/-- Modulus of the 8-bit byte type used for tick counters. -/
def BYTE : Nat := 256

/-- Unsigned 16-bit subtraction, as C computes a - b on CapSenseReading values. -/
def wordSub (a b : Nat) : Nat := (a % WORD + WORD - b % WORD) % WORD

/-- Unsigned 8-bit subtraction, as C computes a - b on byte tick values. -/
def byteSub (a b : Nat) : Nat := (a % BYTE + BYTE - b % BYTE) % BYTE

/-- Modelled from the spec: NUM_CAPSENSE_BINS is defined in the missing
CapSense-consts.h header.  The baseline recomputation in BumpCapSenseBin
takes the max of exactly the bins with indices 0 and 1, so the bin ring has
two slots. -/
def NUM_CAPSENSE_BINS : Nat := 2

/-- TICKS_PER_BIN_CHANGE, from CapSense.c line 37. -/
def TICKS_PER_BIN_CHANGE : Nat := 1

/-- SETTLE_TICKS, from CapSense.c line 327: allow time for all bins to be
overwritten. -/
def SETTLE_TICKS : Nat := TICKS_PER_BIN_CHANGE * NUM_CAPSENSE_BINS + 1

/-- TIMES_THRU_BUTTONS, from CapSense.c line 330. -/
def TIMES_THRU_BUTTONS : Nat := 3

/-- Modelled from the spec: MAX_CS_READING is defined in the missing
CapSense.h header; the spec describes Reading as an unsigned fixed-width
(16-bit) measurement, so its maximum value is 2^16 - 1. -/
def MAX_CS_READING : Nat := 65535

/-- Modelled from the spec: FILTER_LENGTH is defined in the missing
CapSense-consts.h header; the spec says it is "a small power-of-two-like
constant" giving a running average over FILTER_LENGTH samples.  We take 4. -/
def FILTER_LENGTH : Nat := 4

/-- Configuration constants from the missing CapSense-consts.h header,
carried as parameters: the minimum threshold, the filter length, the
debounce poll count, the ticks-per-second constant, the enabled-channel
predicate (the CAPSENSE_CHANNELS bitmask behind IsChannelUsed), and the
first and last enabled channel indices FIRST_CAPSENSE_CHANNEL and
LAST_CAPSENSE_CHANNEL. -/
structure Config where
  CS_MIN_THRESHOLD : Nat
  filterLength : Nat
  DEBOUNCE_POLLS : Nat
  TICKS_PER_SEC : Nat
  enabled : Nat → Bool
  FIRST : Nat
  LAST : Nat

/-- Calibration protocol states, from the CSAutoCalibrateState enum used by
CapSense.c (acStart, acPressNothing, acPressAndReleaseButton, acDone). -/
inductive CSAutoCalibrateState where
  | acStart
  | acPressNothing
  | acPressAndReleaseButton
  | acDone
deriving DecidableEq, Repr

export CSAutoCalibrateState (acStart acPressNothing acPressAndReleaseButton acDone)

/-- Calibration quality results acrFail, acrOK, acrGreat used by
CapSenseContinueCalibrate. -/
inductive CalResult where
  | acrFail
  | acrOK
  | acrGreat
deriving DecidableEq, Repr

export CalResult (acrFail acrOK acrGreat)

/-- Global state of CapSense.c: the per-channel arrays become total
functions from the channel index, the button bytes with the
NO_CAPSENSE_BUTTONS sentinel become Option Nat, and the calibration
module's globals are included. -/
structure State where
  currentCapSenseChannel : Nat
  csReadings : Nat → Nat
  csBaseline : Nat → Nat
  csBin : Nat → Nat → Nat
  csCurrentBin : Nat
  csDownInBin : Nat → Bool
  csLastBinTicks : Nat
  csLastButtonTicks : Nat
  csLastDownPolls : Nat
  csHoldingButton : Option Nat
  csButton : Option Nat
  csMin : Nat → Nat
  csThresholds : Nat → Nat
  csAutoCalibrateState : CSAutoCalibrateState
  csCalButton : Nat
  timesThruButtons : Nat
  ticksStateStart : Nat
  csMaxWaiting : Nat → Nat
  csMaxHolding : Nat → Nat → Nat
  csMaxOthers : Nat → Nat
  csResults : Nat → CalResult

/-- Live press threshold, CapSense.c lines 244-252: start from the
baseline; if it exceeds the sensitivity, subtract the sensitivity and
bracket at CS_MIN_THRESHOLD, else use CS_MIN_THRESHOLD. -/
def liveThreshold (minThreshold baseline sensitivity : Nat) : Nat :=
  let threshold := baseline
  if threshold > sensitivity then
    let threshold := threshold - sensitivity
    max threshold minThreshold
  else
    minThreshold

/-- Filter step, CapSense.c line 256:
reading = cur + (raw - cur) / FILTER_LENGTH, in unsigned 16-bit arithmetic. -/
def filterStep (len cur raw : Nat) : Nat :=
  (cur + wordSub raw cur / len) % WORD

/-- Bin rotation, CapSense.c lines 170-205 (BumpCapSenseBin): advance
csCurrentBin with wrap at NUM_CAPSENSE_BINS; recompute each enabled
channel's baseline as max(csBin[c][0], csBin[c][1]); reset each enabled
channel's newly-current bin to that channel's most-recent reading; record
the rotation tick; clear the down-in-bin flag of the new current bin.  The
per-channel conditional compilation on the CAPSENSE_CHANNELS bitmask
becomes the cfg.enabled guard. -/
def BumpCapSenseBin (cfg : Config) (ticks : Nat) (s : State) : State :=
  let nb := if s.csCurrentBin + 1 ≥ NUM_CAPSENSE_BINS then 0 else s.csCurrentBin + 1
  { s with
    csCurrentBin := nb
    csBaseline := fun c =>
      if cfg.enabled c then max (s.csBin c 0) (s.csBin c 1) else s.csBaseline c
    csBin := fun c b =>
      if cfg.enabled c ∧ b = nb then s.csReadings c else s.csBin c b
    csLastBinTicks := ticks
    csDownInBin := fun b => if b = nb then false else s.csDownInBin b }

/-- Channel advance, CapSense.c lines 207-232 (BumpCapSenseChannel):
increment the channel, skip the statically-disabled channels 1, 2, 3 in
order, and wrap to FIRST_CAPSENSE_CHANNEL past LAST_CAPSENSE_CHANNEL. -/
def BumpCapSenseChannel (cfg : Config) (ch : Nat) : Nat :=
  let c := ch + 1
  let c := if c = 1 ∧ ¬cfg.enabled 1 then c + 1 else c
  let c := if c = 2 ∧ ¬cfg.enabled 2 then c + 1 else c
  let c := if c = 3 ∧ ¬cfg.enabled 3 then c + 1 else c
  if c > cfg.LAST then cfg.FIRST else c

/-- Storing the filtered value, CapSense.c line 257: the filtered reading
replaces the channel's entry in csReadings. -/
def isrStoreReading (reading ch : Nat) (s : State) : State :=
  { s with csReadings := Function.update s.csReadings ch reading }

/-- Edge detection and debounce, CapSense.c lines 259-280: when the
filtered reading is below the threshold and no button is pending, none is
held and the debounce poll count is exceeded, register the press
(csButton, csLastButtonTicks, csHoldingButton, csLastDownPolls,
csDownInBin); when the reading is not below the threshold, release the
held button if it is this channel and, while nothing is held, saturate
csLastDownPolls upward at 255. -/
def isrEdgeLogic (cfg : Config) (ticks reading threshold ch : Nat) (s : State) :
    State :=
  if reading < threshold then
    if s.csButton = none ∧ s.csHoldingButton = none ∧
        s.csLastDownPolls > cfg.DEBOUNCE_POLLS then
      { s with
        csButton := some ch
        csLastButtonTicks := ticks
        csHoldingButton := some ch
        csLastDownPolls := 0
        csDownInBin := Function.update s.csDownInBin s.csCurrentBin true }
    else s
  else
    let holding := if s.csHoldingButton = some ch then none else s.csHoldingButton
    let s2 : State := { s with csHoldingButton := holding }
    if holding = none ∧ s2.csLastDownPolls < 255 then
      { s2 with csLastDownPolls := s2.csLastDownPolls + 1 }
    else s2

/-- Bin-maximum update, CapSense.c lines 282-294: accumulate the filtered
reading into the current bin of the scanned channel under the guard
(no button held and debounce elapsed) or
(ticks - csLastButtonTicks) >= 0 * TICKS_PER_SEC in byte arithmetic. -/
def isrBinUpdate (cfg : Config) (ticks reading ch : Nat) (s : State) : State :=
  if (s.csHoldingButton = none ∧ s.csLastDownPolls > cfg.DEBOUNCE_POLLS) ∨
      byteSub ticks s.csLastButtonTicks ≥ 0 * cfg.TICKS_PER_SEC then
    if reading > s.csBin ch s.csCurrentBin then
      { s with csBin := fun c b =>
          if c = ch ∧ b = s.csCurrentBin then reading else s.csBin c b }
    else s
  else s

/-- Calibration minimum tracking, CapSense.c lines 295-299: only while the
calibration machine is in state acPressAndReleaseButton, accumulate the
filtered reading into csMin of the scanned channel. -/
def isrCalibTrackMin (reading ch : Nat) (s : State) : State :=
  if s.csAutoCalibrateState = acPressAndReleaseButton then
    { s with csMin := Function.update s.csMin ch (min (s.csMin ch) reading) }
  else s

/-- Bin-rotation cadence, CapSense.c lines 301-303: rotate bins when at
least TICKS_PER_BIN_CHANGE ticks have elapsed since the last rotation. -/
def isrMaybeRotateBin (cfg : Config) (ticks : Nat) (s : State) : State :=
  if byteSub ticks s.csLastBinTicks ≥ TICKS_PER_BIN_CHANGE then
    BumpCapSenseBin cfg ticks s
  else s

/-- Interrupt body, CapSense.c lines 234-311 (CapSenseISR), modelling the
branch taken when UiTimeInterrupt() reports a completed measurement.  The
raw argument is the 16-bit count read from TMR1 ((tmr1h << 8) | tmr1l) and
ticks is the current value of the external tick counter.  Steps, in source
order: compute the live threshold from the baseline and the per-channel
sensitivity byte; filter the raw value into csReadings; run the press /
release edge logic; update the current bin's maximum; during the
calibration press-and-release state, accumulate the per-channel minimum;
rotate bins when due; advance the channel. -/
def capSenseISR (cfg : Config) (raw ticks : Nat) (s : State) : State :=
  let ch := s.currentCapSenseChannel
  let threshold :=
    liveThreshold cfg.CS_MIN_THRESHOLD (s.csBaseline ch) (s.csThresholds ch % BYTE)
  let reading := filterStep cfg.filterLength (s.csReadings ch) raw
  let s1 := isrStoreReading reading ch s
  let s2 := isrEdgeLogic cfg ticks reading threshold ch s1
  let s3 := isrBinUpdate cfg ticks reading ch s2
  let s4 := isrCalibTrackMin reading ch s3
  let s5 := isrMaybeRotateBin cfg ticks s4
  { s5 with currentCapSenseChannel := BumpCapSenseChannel cfg ch }

/-- Consuming the one-slot button queue, CapSense.c lines 163-168
(GetCapSenseButton): return csButton and clear it to NO_CAPSENSE_BUTTONS. -/
def GetCapSenseButton (s : State) : Option Nat × State :=
  (s.csButton, { s with csButton := none })

/-- Timer-peripheral registers touched by RestartCapSenseTimer and
CapSenseISRDone: the TMR0 prescaler count, the TMR1 oscillation-count
register pair, the TMR1 run bit and the TMR0 interrupt flag. -/
structure TimerState where
  tmr0 : Nat
  tmr1l : Nat
  tmr1h : Nat
  tmr1on : Bool
  t0if : Bool
deriving DecidableEq, Repr

/-- Timer restart, CapSense.c lines 67-78 (RestartCapSenseTimer): clear and
reset both timers so TMR1 counts oscillations afresh and TMR0 restarts its
cycle count, and clear the TMR0 interrupt flag. -/
def RestartCapSenseTimer (_t : TimerState) : TimerState :=
  { tmr0 := 0, tmr1l := 0, tmr1h := 0, tmr1on := true, t0if := false }

/-- Overrun handling, CapSense.c lines 313-319 (CapSenseISRDone): if the
TMR0 interrupt flag is set again before the interrupt service finished, the
in-progress count is inaccurate, so both timers are restarted from a clean
state; otherwise nothing happens.  The function returns no status and
touches no measurement state. -/
def CapSenseISRDone (t : TimerState) : TimerState :=
  if t.t0if then RestartCapSenseTimer t else t

/-- State entry helper, CapSense.c lines 353-357 (EnterState): record the
new calibration state and the tick at which it was entered. -/
def EnterState (newState : CSAutoCalibrateState) (ticks : Nat) (s : State) : State :=
  { s with csAutoCalibrateState := newState, ticksStateStart := ticks }

/-- Calibration start, CapSense.c lines 359-362 (CapSenseStartCalibrate). -/
def CapSenseStartCalibrate (ticks : Nat) (s : State) : State :=
  EnterState acStart ticks s

/-- Skip loop from CapSense.c lines 423-425: advance csCalButton past
channels for which IsChannelUsed is false, stopping past
LAST_CAPSENSE_CHANNEL. -/
def skipUnusedChannels (cfg : Config) (c : Nat) : Nat :=
  if ¬cfg.enabled c ∧ c ≤ cfg.LAST then skipUnusedChannels cfg (c + 1) else c
termination_by cfg.LAST + 1 - c
decreasing_by
  rename_i h
  omega

/-- Per-channel Done-phase computation, CapSense.c lines 447-485: fold the
minimum and maximum own-press excursions over the TIMES_THRU_BUTTONS
passes (starting from MAX_CS_READING and 0 as in the source loop), report
acrFail with the fallback threshold (maxMe / 2) + (maxWaiting / 2) -
CS_MIN_THRESHOLD when cross-talk or idle noise is not safely below the
weakest own press, and otherwise report minMe - CS_MIN_THRESHOLD with a
rating of acrOK or acrGreat depending on the margin checks.  All sums and
differences are 16-bit unsigned. -/
def calibrateChannelDone (minThreshold maxWaiting maxOthers : Nat)
    (holding : Nat → Nat) : CalResult × Nat :=
  let minMe := min (min (min MAX_CS_READING (holding 0)) (holding 1)) (holding 2)
  let maxMe := max (max (max 0 (holding 0)) (holding 1)) (holding 2)
  if (maxOthers + 2 * minThreshold) % WORD ≥ minMe ∨
      (maxWaiting + 2 * minThreshold) % WORD ≥ minMe then
    (acrFail, wordSub (maxMe / 2 + maxWaiting / 2) minThreshold)
  else
    let thr := wordSub minMe minThreshold
    if maxOthers > minMe ∨ maxOthers > wordSub minMe (2 * minThreshold) ∨
        maxWaiting > minMe ∨ maxWaiting > wordSub minMe minThreshold then
      (acrOK, thr)
    else
      (acrGreat, thr)

/-- Done-phase loop, CapSense.c lines 442-491: for every channel from
FIRST_CAPSENSE_CHANNEL to LAST_CAPSENSE_CHANNEL, used channels get the
result and threshold of calibrateChannelDone and unused channels get
acrFail with threshold 0; the loop counter csCalButton ends one past
LAST_CAPSENSE_CHANNEL.  The EEPROM write-back of thresholds and
diagnostics goes to the external storage collaborator and is not part of
this state. -/
def acDoneUpdate (cfg : Config) (s : State) : State :=
  { s with
    csResults := fun c =>
      if cfg.FIRST ≤ c ∧ c ≤ cfg.LAST then
        if cfg.enabled c then
          (calibrateChannelDone cfg.CS_MIN_THRESHOLD (s.csMaxWaiting c)
            (s.csMaxOthers c) (s.csMaxHolding c)).1
        else acrFail
      else s.csResults c
    csThresholds := fun c =>
      if cfg.FIRST ≤ c ∧ c ≤ cfg.LAST then
        if cfg.enabled c then
          (calibrateChannelDone cfg.CS_MIN_THRESHOLD (s.csMaxWaiting c)
            (s.csMaxOthers c) (s.csMaxHolding c)).2
        else 0
      else s.csThresholds c
    csCalButton := cfg.LAST + 1 }

/-- Calibration poll, CapSense.c lines 364-506 (CapSenseContinueCalibrate):
consume the one-slot button queue via GetCapSenseButton, run the state
actions and transitions of the acStart / acPressNothing /
acPressAndReleaseButton machine, and, when the state has reached acDone,
run the Done-phase threshold computation and return false; otherwise
return true. -/
def CapSenseContinueCalibrate (cfg : Config) (ticks : Nat) (s : State) :
    State × Bool :=
  let s : State := (GetCapSenseButton s).2
  let s : State :=
    match s.csAutoCalibrateState with
    | acStart =>
      let s : State := { s with
        csCalButton := cfg.FIRST
        timesThruButtons := 0
        csMaxWaiting := fun _ => 0
        csMaxHolding := fun _ _ => 0
        csMaxOthers := fun _ => 0 }
      EnterState acPressNothing ticks s
    | acPressNothing =>
      if byteSub ticks s.ticksStateStart > SETTLE_TICKS then
        let s : State := { s with
          csMaxWaiting := fun c =>
            if cfg.FIRST ≤ c ∧ c ≤ cfg.LAST then
              max (s.csMaxWaiting c) (wordSub (s.csBaseline c) (s.csMin c))
            else s.csMaxWaiting c }
        if s.timesThruButtons = 0 then
          EnterState acPressAndReleaseButton ticks s
        else
          EnterState acDone ticks s
      else s
    | acPressAndReleaseButton =>
      if byteSub ticks s.ticksStateStart > SETTLE_TICKS then
        let s : State := { s with
          csMaxHolding := fun c i =>
            if cfg.FIRST ≤ c ∧ c ≤ cfg.LAST ∧ c = s.csCalButton ∧
                i = s.timesThruButtons then
              max (s.csMaxHolding c i) (wordSub (s.csBaseline c) (s.csMin c))
            else s.csMaxHolding c i
          csMaxOthers := fun c =>
            if cfg.FIRST ≤ c ∧ c ≤ cfg.LAST ∧ c ≠ s.csCalButton then
              max (s.csMaxOthers c) (wordSub (s.csBaseline c) (s.csMin c))
            else s.csMaxOthers c }
        let s : State := EnterState acPressAndReleaseButton ticks s
        let s : State := { s with csCalButton := s.csCalButton + 1 }
        let s : State := { s with csCalButton := skipUnusedChannels cfg s.csCalButton }
        let s : State := { s with csMin := fun _ => MAX_CS_READING }
        if s.csCalButton > cfg.LAST then
          let s : State := { s with
            csCalButton := cfg.FIRST
            timesThruButtons := s.timesThruButtons + 1 }
          if s.timesThruButtons ≥ TIMES_THRU_BUTTONS then
            EnterState acPressNothing ticks s
          else s
        else s
      else s
    | acDone => s
  if s.csAutoCalibrateState = acDone then
    (acDoneUpdate cfg s, false)
  else
    (s, true)

/-!  Supporting lemmas. -/

theorem wordSub_eq_sub (a b : Nat) (hb : b ≤ a) (ha : a < WORD) :
    wordSub a b = a - b := by
  unfold wordSub WORD at *
  omega

theorem iterate_fixed_point (f : Nat → Nat) (a : Nat) (h : f a = a) :
    ∀ n, f^[n] a = a := by
  intro n
  induction n with
  | zero => rfl
  | succ n ih => rw [Function.iterate_succ_apply, h, ih]

theorem filterStep_eq (len x r : Nat) (hx : x ≤ r) (hr : r < WORD) :
    filterStep len x r = x + (r - x) / len := by
  unfold filterStep
  rw [wordSub_eq_sub r x hx hr]
  have h2 : x + (r - x) / len ≤ r := by
    have h1 := Nat.div_le_self (r - x) len
    omega
  exact Nat.mod_eq_of_lt (lt_of_le_of_lt h2 hr)

theorem filterStep_bounds (len x r : Nat) (hx : x ≤ r) (hr : r < WORD) :
    x ≤ filterStep len x r ∧ filterStep len x r ≤ r := by
  rw [filterStep_eq len x r hx hr]
  have h1 : (r - x) / len ≤ r - x := Nat.div_le_self _ _
  generalize hgen : (r - x) / len = d at h1 ⊢
  omega

theorem filterStep_fixed_iff (len x r : Nat) (hL : 1 ≤ len) (hx : x ≤ r)
    (hr : r < WORD) : filterStep len x r = x ↔ r - x < len := by
  rw [filterStep_eq len x r hx hr]
  constructor
  · intro h
    have h0 : (r - x) / len = 0 := by
      generalize hgen : (r - x) / len = d at h
      omega
    have := (Nat.div_eq_zero_iff (by omega : 0 < len)).mp h0
    omega
  · intro h
    rw [Nat.div_eq_of_lt h]
    omega

theorem filterStep_iter_bounds (len r : Nat) (hr : r < WORD) :
    ∀ (n x : Nat), x ≤ r →
      x ≤ (fun y => filterStep len y r)^[n] x ∧
        (fun y => filterStep len y r)^[n] x ≤ r := by
  intro n
  induction n with
  | zero => intro x hx; exact ⟨le_refl x, hx⟩
  | succ n ih =>
    intro x hx
    rw [Function.iterate_succ_apply]
    have hb := filterStep_bounds len x r hx hr
    have := ih (filterStep len x r) hb.2
    exact ⟨le_trans hb.1 this.1, this.2⟩

theorem filterStep_iter_fixed (len r : Nat) (hL : 1 ≤ len) (hr : r < WORD) :
    ∀ (n x : Nat), x ≤ r → r - x ≤ n →
      filterStep len ((fun y => filterStep len y r)^[n] x) r =
        (fun y => filterStep len y r)^[n] x := by
  intro n
  induction n with
  | zero =>
    intro x hx hn
    have hxr : x = r := by omega
    subst hxr
    simp only [Function.iterate_zero, id_eq]
    exact (filterStep_fixed_iff len x x hL (le_refl x) hr).mpr (by omega)
  | succ n ih =>
    intro x hx hn
    by_cases hlt : r - x < len
    · have hfix : filterStep len x r = x :=
        (filterStep_fixed_iff len x r hL hx hr).mpr hlt
      have hiter : (fun y => filterStep len y r)^[n + 1] x = x :=
        iterate_fixed_point (fun y => filterStep len y r) x hfix (n + 1)
      rw [hiter, hfix]
    · have hb := filterStep_bounds len x r hx hr
      have h1 : x + 1 ≤ filterStep len x r := by
        rw [filterStep_eq len x r hx hr]
        have : 1 ≤ (r - x) / len := (Nat.one_le_div_iff (by omega)).mpr (by omega)
        omega
      rw [Function.iterate_succ_apply]
      exact ih (filterStep len x r) hb.2 (by omega)

theorem bump_newBin_ne_oldBin (s : State) :
    ¬(s.csCurrentBin =
        (if s.csCurrentBin + 1 ≥ NUM_CAPSENSE_BINS then 0 else s.csCurrentBin + 1)) := by
  unfold NUM_CAPSENSE_BINS
  split_ifs with h <;> omega

theorem bump_downInBin_oldBin (cfg : Config) (ticks : Nat) (s : State) :
    (BumpCapSenseBin cfg ticks s).csDownInBin s.csCurrentBin =
      s.csDownInBin s.csCurrentBin := by
  have h := bump_newBin_ne_oldBin s
  simp only [BumpCapSenseBin]
  simp [h]

theorem bump_buttons_unchanged (cfg : Config) (ticks : Nat) (s : State) :
    (BumpCapSenseBin cfg ticks s).csButton = s.csButton ∧
      (BumpCapSenseBin cfg ticks s).csHoldingButton = s.csHoldingButton ∧
      (BumpCapSenseBin cfg ticks s).csLastDownPolls = s.csLastDownPolls := by
  simp [BumpCapSenseBin]

theorem isrBinUpdate_preserves (cfg : Config) (ticks reading ch : Nat) (s : State) :
    (isrBinUpdate cfg ticks reading ch s).csButton = s.csButton ∧
      (isrBinUpdate cfg ticks reading ch s).csHoldingButton = s.csHoldingButton ∧
      (isrBinUpdate cfg ticks reading ch s).csLastDownPolls = s.csLastDownPolls ∧
      (isrBinUpdate cfg ticks reading ch s).csDownInBin = s.csDownInBin ∧
      (isrBinUpdate cfg ticks reading ch s).csCurrentBin = s.csCurrentBin ∧
      (isrBinUpdate cfg ticks reading ch s).csMin = s.csMin ∧
      (isrBinUpdate cfg ticks reading ch s).csAutoCalibrateState =
        s.csAutoCalibrateState ∧
      (isrBinUpdate cfg ticks reading ch s).csLastBinTicks = s.csLastBinTicks := by
  unfold isrBinUpdate
  split_ifs <;> simp

theorem isrCalibTrackMin_preserves (reading ch : Nat) (s : State) :
    (isrCalibTrackMin reading ch s).csButton = s.csButton ∧
      (isrCalibTrackMin reading ch s).csHoldingButton = s.csHoldingButton ∧
      (isrCalibTrackMin reading ch s).csLastDownPolls = s.csLastDownPolls ∧
      (isrCalibTrackMin reading ch s).csDownInBin = s.csDownInBin ∧
      (isrCalibTrackMin reading ch s).csCurrentBin = s.csCurrentBin ∧
      (isrCalibTrackMin reading ch s).csBin = s.csBin ∧
      (isrCalibTrackMin reading ch s).csLastBinTicks = s.csLastBinTicks := by
  unfold isrCalibTrackMin
  split_ifs <;> simp

theorem isrMaybeRotateBin_preserves (cfg : Config) (ticks : Nat) (s : State) :
    (isrMaybeRotateBin cfg ticks s).csButton = s.csButton ∧
      (isrMaybeRotateBin cfg ticks s).csHoldingButton = s.csHoldingButton ∧
      (isrMaybeRotateBin cfg ticks s).csLastDownPolls = s.csLastDownPolls ∧
      (isrMaybeRotateBin cfg ticks s).csMin = s.csMin ∧
      (isrMaybeRotateBin cfg ticks s).csDownInBin s.csCurrentBin =
        s.csDownInBin s.csCurrentBin := by
  unfold isrMaybeRotateBin
  split_ifs with h
  · exact ⟨(bump_buttons_unchanged cfg ticks s).1,
      (bump_buttons_unchanged cfg ticks s).2.1,
      (bump_buttons_unchanged cfg ticks s).2.2,
      rfl, bump_downInBin_oldBin cfg ticks s⟩
  · exact ⟨rfl, rfl, rfl, rfl, rfl⟩

theorem isrEdgeLogic_currentBin (cfg : Config) (ticks reading threshold ch : Nat)
    (s : State) :
    (isrEdgeLogic cfg ticks reading threshold ch s).csCurrentBin = s.csCurrentBin ∧
      (isrEdgeLogic cfg ticks reading threshold ch s).csAutoCalibrateState =
        s.csAutoCalibrateState := by
  unfold isrEdgeLogic
  split_ifs <;> simp <;> split_ifs <;> simp

theorem isrEdgeLogic_press (cfg : Config) (ticks reading threshold ch : Nat)
    (s : State) (hlt : reading < threshold) (hq : s.csButton = none)
    (hh : s.csHoldingButton = none)
    (hd : s.csLastDownPolls > cfg.DEBOUNCE_POLLS) :
    (isrEdgeLogic cfg ticks reading threshold ch s).csButton = some ch ∧
      (isrEdgeLogic cfg ticks reading threshold ch s).csHoldingButton = some ch ∧
      (isrEdgeLogic cfg ticks reading threshold ch s).csLastDownPolls = 0 ∧
      (isrEdgeLogic cfg ticks reading threshold ch s).csDownInBin s.csCurrentBin =
        true := by
  unfold isrEdgeLogic
  rw [if_pos hlt, if_pos ⟨hq, hh, hd⟩]
  simp [Function.update]

theorem isrEdgeLogic_no_press (cfg : Config) (ticks reading threshold ch : Nat)
    (s : State)
    (hneg : ¬(reading < threshold ∧ s.csButton = none ∧ s.csHoldingButton = none ∧
        s.csLastDownPolls > cfg.DEBOUNCE_POLLS)) :
    (isrEdgeLogic cfg ticks reading threshold ch s).csButton = s.csButton := by
  simp only [isrEdgeLogic]
  split_ifs with h1 h2 h3 h4 h5 <;>
    first
      | rfl
      | exact absurd ⟨h1, h2.1, h2.2.1, h2.2.2⟩ hneg

/-- Spine lemma: the interrupt body's pending-button, held-button and
down-poll fields are exactly those produced by the edge-logic stage applied
to the state with the filtered reading stored, and the down-in-bin flag of
the bin that was current on entry survives the possible rotation. -/
theorem capSenseISR_spine (cfg : Config) (raw ticks : Nat) (s : State) :
    (capSenseISR cfg raw ticks s).csButton =
        (isrEdgeLogic cfg ticks
          (filterStep cfg.filterLength (s.csReadings s.currentCapSenseChannel) raw)
          (liveThreshold cfg.CS_MIN_THRESHOLD (s.csBaseline s.currentCapSenseChannel)
            (s.csThresholds s.currentCapSenseChannel % BYTE))
          s.currentCapSenseChannel
          (isrStoreReading
            (filterStep cfg.filterLength (s.csReadings s.currentCapSenseChannel) raw)
            s.currentCapSenseChannel s)).csButton ∧
      (capSenseISR cfg raw ticks s).csHoldingButton =
        (isrEdgeLogic cfg ticks
          (filterStep cfg.filterLength (s.csReadings s.currentCapSenseChannel) raw)
          (liveThreshold cfg.CS_MIN_THRESHOLD (s.csBaseline s.currentCapSenseChannel)
            (s.csThresholds s.currentCapSenseChannel % BYTE))
          s.currentCapSenseChannel
          (isrStoreReading
            (filterStep cfg.filterLength (s.csReadings s.currentCapSenseChannel) raw)
            s.currentCapSenseChannel s)).csHoldingButton ∧
      (capSenseISR cfg raw ticks s).csLastDownPolls =
        (isrEdgeLogic cfg ticks
          (filterStep cfg.filterLength (s.csReadings s.currentCapSenseChannel) raw)
          (liveThreshold cfg.CS_MIN_THRESHOLD (s.csBaseline s.currentCapSenseChannel)
            (s.csThresholds s.currentCapSenseChannel % BYTE))
          s.currentCapSenseChannel
          (isrStoreReading
            (filterStep cfg.filterLength (s.csReadings s.currentCapSenseChannel) raw)
            s.currentCapSenseChannel s)).csLastDownPolls ∧
      (capSenseISR cfg raw ticks s).csDownInBin s.csCurrentBin =
        (isrEdgeLogic cfg ticks
          (filterStep cfg.filterLength (s.csReadings s.currentCapSenseChannel) raw)
          (liveThreshold cfg.CS_MIN_THRESHOLD (s.csBaseline s.currentCapSenseChannel)
            (s.csThresholds s.currentCapSenseChannel % BYTE))
          s.currentCapSenseChannel
          (isrStoreReading
            (filterStep cfg.filterLength (s.csReadings s.currentCapSenseChannel) raw)
            s.currentCapSenseChannel s)).csDownInBin s.csCurrentBin := by
  simp only [capSenseISR]
  generalize hs2 :
    isrEdgeLogic cfg ticks
      (filterStep cfg.filterLength (s.csReadings s.currentCapSenseChannel) raw)
      (liveThreshold cfg.CS_MIN_THRESHOLD (s.csBaseline s.currentCapSenseChannel)
        (s.csThresholds s.currentCapSenseChannel % BYTE))
      s.currentCapSenseChannel
      (isrStoreReading
        (filterStep cfg.filterLength (s.csReadings s.currentCapSenseChannel) raw)
        s.currentCapSenseChannel s) = s2
  have hbin2 : s2.csCurrentBin = s.csCurrentBin := by
    rw [← hs2]
    exact (isrEdgeLogic_currentBin cfg ticks _ _ _ _).1
  have h3 := isrBinUpdate_preserves cfg ticks
    (filterStep cfg.filterLength (s.csReadings s.currentCapSenseChannel) raw)
    s.currentCapSenseChannel s2
  have h4 := isrCalibTrackMin_preserves
    (filterStep cfg.filterLength (s.csReadings s.currentCapSenseChannel) raw)
    s.currentCapSenseChannel
    (isrBinUpdate cfg ticks
      (filterStep cfg.filterLength (s.csReadings s.currentCapSenseChannel) raw)
      s.currentCapSenseChannel s2)
  have h5 := isrMaybeRotateBin_preserves cfg ticks
    (isrCalibTrackMin
      (filterStep cfg.filterLength (s.csReadings s.currentCapSenseChannel) raw)
      s.currentCapSenseChannel
      (isrBinUpdate cfg ticks
        (filterStep cfg.filterLength (s.csReadings s.currentCapSenseChannel) raw)
        s.currentCapSenseChannel s2))
  have hX :
      (isrCalibTrackMin
        (filterStep cfg.filterLength (s.csReadings s.currentCapSenseChannel) raw)
        s.currentCapSenseChannel
        (isrBinUpdate cfg ticks
          (filterStep cfg.filterLength (s.csReadings s.currentCapSenseChannel) raw)
          s.currentCapSenseChannel s2)).csCurrentBin = s.csCurrentBin := by
    rw [h4.2.2.2.2.1, h3.2.2.2.2.1, hbin2]
  refine ⟨?_, ?_, ?_, ?_⟩
  · rw [h5.1, h4.1, h3.1]
  · rw [h5.2.1, h4.2.1, h3.2.1]
  · rw [h5.2.2.1, h4.2.2.1, h3.2.2.1]
  · have hrot := h5.2.2.2.2
    rw [hX] at hrot
    rw [hrot, h4.2.2.2.1, h3.2.2.2.1]

theorem acDoneUpdate_fields (cfg : Config) (s : State) (c : Nat)
    (h1 : cfg.FIRST ≤ c) (h2 : c ≤ cfg.LAST) (hen : cfg.enabled c = true) :
    (acDoneUpdate cfg s).csResults c =
        (calibrateChannelDone cfg.CS_MIN_THRESHOLD (s.csMaxWaiting c)
          (s.csMaxOthers c) (s.csMaxHolding c)).1 ∧
      (acDoneUpdate cfg s).csThresholds c =
        (calibrateChannelDone cfg.CS_MIN_THRESHOLD (s.csMaxWaiting c)
          (s.csMaxOthers c) (s.csMaxHolding c)).2 := by
  unfold acDoneUpdate
  constructor <;> simp [h1, h2, hen]

theorem calibrateChannelDone_spec (minT mw mo : Nat) (h : Nat → Nat) :
    ((calibrateChannelDone minT mw mo h).1 = acrFail ↔
        (mo + 2 * minT) % WORD ≥ min (min (min MAX_CS_READING (h 0)) (h 1)) (h 2) ∨
        (mw + 2 * minT) % WORD ≥ min (min (min MAX_CS_READING (h 0)) (h 1)) (h 2)) ∧
      (((mo + 2 * minT) % WORD ≥ min (min (min MAX_CS_READING (h 0)) (h 1)) (h 2) ∨
          (mw + 2 * minT) % WORD ≥ min (min (min MAX_CS_READING (h 0)) (h 1)) (h 2)) →
        (calibrateChannelDone minT mw mo h).2 =
          wordSub (max (max (max 0 (h 0)) (h 1)) (h 2) / 2 + mw / 2) minT) ∧
      (¬((mo + 2 * minT) % WORD ≥ min (min (min MAX_CS_READING (h 0)) (h 1)) (h 2) ∨
          (mw + 2 * minT) % WORD ≥ min (min (min MAX_CS_READING (h 0)) (h 1)) (h 2)) →
        (calibrateChannelDone minT mw mo h).2 =
            wordSub (min (min (min MAX_CS_READING (h 0)) (h 1)) (h 2)) minT ∧
          ((calibrateChannelDone minT mw mo h).1 = acrGreat ↔
            ¬(mo > min (min (min MAX_CS_READING (h 0)) (h 1)) (h 2) ∨
              mo > wordSub (min (min (min MAX_CS_READING (h 0)) (h 1)) (h 2))
                (2 * minT) ∨
              mw > min (min (min MAX_CS_READING (h 0)) (h 1)) (h 2) ∨
              mw > wordSub (min (min (min MAX_CS_READING (h 0)) (h 1)) (h 2)) minT)) ∧
          ((calibrateChannelDone minT mw mo h).1 = acrOK ↔
            (mo > min (min (min MAX_CS_READING (h 0)) (h 1)) (h 2) ∨
              mo > wordSub (min (min (min MAX_CS_READING (h 0)) (h 1)) (h 2))
                (2 * minT) ∨
              mw > min (min (min MAX_CS_READING (h 0)) (h 1)) (h 2) ∨
              mw > wordSub (min (min (min MAX_CS_READING (h 0)) (h 1)) (h 2)) minT))) := by
  simp only [calibrateChannelDone]
  split_ifs with hf hok
  · exact ⟨iff_of_true rfl hf, fun _ => rfl, fun hn => absurd hf hn⟩
  · refine ⟨iff_of_false (by decide) hf, fun hc => absurd hc hf, fun _ => ?_⟩
    exact ⟨rfl, iff_of_false (by decide) (not_not_intro hok), iff_of_true rfl hok⟩
  · refine ⟨iff_of_false (by decide) hf, fun hc => absurd hc hf, fun _ => ?_⟩
    exact ⟨rfl, iff_of_true rfl hok, iff_of_false (by decide) hok⟩

/-- C1: for every channel and every measurement cycle, the live press
threshold computed by the measurement pipeline (the liveThreshold function
that capSenseISR applies to the channel's Baseline and its persisted
per-channel sensitivity byte) equals max(Baseline - sensitivity,
CS_MIN_THRESHOLD) when Baseline > sensitivity, and CS_MIN_THRESHOLD
otherwise. -/
theorem c1_live_threshold_formula (minThreshold baseline sensitivity : Nat) :
    liveThreshold minThreshold baseline sensitivity =
      if baseline > sensitivity then max (baseline - sensitivity) minThreshold
      else minThreshold := by
  rfl

/-- C2: the interrupt body registers a press for the currently scanned
channel exactly when the filtered reading is below the live threshold, no
pending button is queued, no channel is held, and the down-poll counter
exceeds DEBOUNCE_POLLS; on such a transition csButton and csHoldingButton
are both set to that channel, csLastDownPolls is reset to 0 and the bin
that was current when the press happened is marked as having had a press.
In every other case csButton is left untouched, so a second press arriving
while one is still queued is dropped, not buffered. -/
theorem c2_press_registration (cfg : Config) (raw ticks : Nat) (s : State) :
    ((filterStep cfg.filterLength (s.csReadings s.currentCapSenseChannel) raw <
          liveThreshold cfg.CS_MIN_THRESHOLD (s.csBaseline s.currentCapSenseChannel)
            (s.csThresholds s.currentCapSenseChannel % BYTE) ∧
        s.csButton = none ∧ s.csHoldingButton = none ∧
        s.csLastDownPolls > cfg.DEBOUNCE_POLLS) →
      (capSenseISR cfg raw ticks s).csButton = some s.currentCapSenseChannel ∧
        (capSenseISR cfg raw ticks s).csHoldingButton = some s.currentCapSenseChannel ∧
        (capSenseISR cfg raw ticks s).csLastDownPolls = 0 ∧
        (capSenseISR cfg raw ticks s).csDownInBin s.csCurrentBin = true) ∧
    (¬(filterStep cfg.filterLength (s.csReadings s.currentCapSenseChannel) raw <
          liveThreshold cfg.CS_MIN_THRESHOLD (s.csBaseline s.currentCapSenseChannel)
            (s.csThresholds s.currentCapSenseChannel % BYTE) ∧
        s.csButton = none ∧ s.csHoldingButton = none ∧
        s.csLastDownPolls > cfg.DEBOUNCE_POLLS) →
      (capSenseISR cfg raw ticks s).csButton = s.csButton) := by
  constructor
  · rintro ⟨hlt, hq, hh, hd⟩
    obtain ⟨e1, e2, e3, e4⟩ := capSenseISR_spine cfg raw ticks s
    rw [e1, e2, e3, e4]
    exact isrEdgeLogic_press cfg ticks _ _ _ _ hlt hq hh hd
  · intro hneg
    obtain ⟨e1, _, _, _⟩ := capSenseISR_spine cfg raw ticks s
    rw [e1]
    exact isrEdgeLogic_no_press cfg ticks _ _ _ _ hneg

/-- C2 witness: a concrete state in which channel 0 is scanned with an
empty queue, nothing held and an elapsed debounce count, and the filtered
reading 50 falls below the live threshold 100; the press is registered as
the claim describes. -/
theorem c2_press_registration_witness :
    (capSenseISR
        { CS_MIN_THRESHOLD := 2, filterLength := 2, DEBOUNCE_POLLS := 3,
          TICKS_PER_SEC := 125, enabled := fun c => c = 0, FIRST := 0, LAST := 0 }
        60 9
        { currentCapSenseChannel := 0, csReadings := fun _ => 40,
          csBaseline := fun _ => 200, csBin := fun _ _ => 10, csCurrentBin := 0,
          csDownInBin := fun _ => false, csLastBinTicks := 9,
          csLastButtonTicks := 0, csLastDownPolls := 10, csHoldingButton := none,
          csButton := none, csMin := fun _ => 65535, csThresholds := fun _ => 100,
          csAutoCalibrateState := acDone, csCalButton := 0, timesThruButtons := 0,
          ticksStateStart := 0, csMaxWaiting := fun _ => 0,
          csMaxHolding := fun _ _ => 0, csMaxOthers := fun _ => 0,
          csResults := fun _ => acrFail }).csButton = some 0 := by
  have h := c2_press_registration
    { CS_MIN_THRESHOLD := 2, filterLength := 2, DEBOUNCE_POLLS := 3,
      TICKS_PER_SEC := 125, enabled := fun c => c = 0, FIRST := 0, LAST := 0 }
    60 9
    { currentCapSenseChannel := 0, csReadings := fun _ => 40,
      csBaseline := fun _ => 200, csBin := fun _ _ => 10, csCurrentBin := 0,
      csDownInBin := fun _ => false, csLastBinTicks := 9,
      csLastButtonTicks := 0, csLastDownPolls := 10, csHoldingButton := none,
      csButton := none, csMin := fun _ => 65535, csThresholds := fun _ => 100,
      csAutoCalibrateState := acDone, csCalButton := 0, timesThruButtons := 0,
      ticksStateStart := 0, csMaxWaiting := fun _ => 0,
      csMaxHolding := fun _ _ => 0, csMaxOthers := fun _ => 0,
      csResults := fun _ => acrFail }
  exact (h.1 (by refine ⟨by decide, rfl, rfl, by decide⟩)).1

/-- C3: evaluation of the interrupt body at a state in which channel 0 is
held (csHoldingButton = some 0) and the hold began on this very tick
(csLastButtonTicks = ticks = 9, so the hold has persisted for 0 ticks,
which is not "a really long time" for any positive guard duration), with
the filtered reading 50 still below the threshold: the current bin maximum
is nevertheless raised from 10 to 50, because the guard in CapSense.c line
287 compares the hold age against 0 * TICKS_PER_SEC = 0 and byte
subtraction is never negative, so the bin update always runs. -/
theorem c3_bin_updated_during_fresh_hold :
    (capSenseISR
        { CS_MIN_THRESHOLD := 2, filterLength := 2, DEBOUNCE_POLLS := 3,
          TICKS_PER_SEC := 125, enabled := fun c => c = 0, FIRST := 0, LAST := 0 }
        60 9
        { currentCapSenseChannel := 0, csReadings := fun _ => 40,
          csBaseline := fun _ => 200, csBin := fun _ _ => 10, csCurrentBin := 0,
          csDownInBin := fun _ => true, csLastBinTicks := 9,
          csLastButtonTicks := 9, csLastDownPolls := 0,
          csHoldingButton := some 0, csButton := none, csMin := fun _ => 65535,
          csThresholds := fun _ => 100, csAutoCalibrateState := acDone,
          csCalButton := 0, timesThruButtons := 0, ticksStateStart := 0,
          csMaxWaiting := fun _ => 0, csMaxHolding := fun _ _ => 0,
          csMaxOthers := fun _ => 0, csResults := fun _ => acrFail }).csBin 0 0 = 50 ∧
      filterStep 2 40 60 = 50 ∧
      liveThreshold 2 200 100 = 100 ∧ (50 : Nat) < 100 ∧ (10 : Nat) ≠ 50 := by
  refine ⟨by decide, by decide, by decide, by decide, by decide⟩

/-- C4 counterexample: a bin rotation for a channel whose two bins both
hold the value 5 while the stored Baseline is 100 (a reachable situation:
the baseline is only recomputed at rotations, while bins are re-seeded
from lower recent readings in between) changes the Baseline from 100 to 5,
so rotation with all bins equal does not in general leave the Baseline
field unchanged. -/
theorem c4_counterexample_baseline_changes :
    (BumpCapSenseBin
        { CS_MIN_THRESHOLD := 2, filterLength := 2, DEBOUNCE_POLLS := 3,
          TICKS_PER_SEC := 125, enabled := fun c => c = 0, FIRST := 0, LAST := 0 }
        3
        { currentCapSenseChannel := 0, csReadings := fun _ => 7,
          csBaseline := fun _ => 100, csBin := fun _ _ => 5, csCurrentBin := 0,
          csDownInBin := fun _ => false, csLastBinTicks := 0,
          csLastButtonTicks := 0, csLastDownPolls := 10, csHoldingButton := none,
          csButton := none, csMin := fun _ => 65535, csThresholds := fun _ => 10,
          csAutoCalibrateState := acDone, csCalButton := 0, timesThruButtons := 0,
          ticksStateStart := 0, csMaxWaiting := fun _ => 0,
          csMaxHolding := fun _ _ => 0, csMaxOthers := fun _ => 0,
          csResults := fun _ => acrFail }).csBaseline 0 = 5 ∧ (5 : Nat) ≠ 100 := by
  refine ⟨by decide, by decide⟩

/-- C4 amended: bin rotation advances the current bin index with
wrap-around, recomputes each enabled channel's Baseline as the maximum
over both bins of that channel (taken before the reset), resets the
channel's newly current bin to its latest filtered Reading, and clears the
had-a-press flag of the new current bin; when all of a channel's bins hold
one common value and the stored Baseline already equals that value (as it
does whenever the Baseline is in sync with the bins, e.g. right after a
rotation), the rotation leaves the Baseline unchanged — in general it sets
the Baseline to the common bin value. -/
theorem c4_bump_bin_rotation (cfg : Config) (ticks : Nat) (s : State) (c : Nat)
    (hc : cfg.enabled c = true) :
    (BumpCapSenseBin cfg ticks s).csCurrentBin =
        (if s.csCurrentBin + 1 ≥ NUM_CAPSENSE_BINS then 0 else s.csCurrentBin + 1) ∧
      (BumpCapSenseBin cfg ticks s).csBaseline c = max (s.csBin c 0) (s.csBin c 1) ∧
      (BumpCapSenseBin cfg ticks s).csBin c
        ((BumpCapSenseBin cfg ticks s).csCurrentBin) = s.csReadings c ∧
      (BumpCapSenseBin cfg ticks s).csDownInBin
        ((BumpCapSenseBin cfg ticks s).csCurrentBin) = false ∧
      (∀ v, s.csBin c 0 = v → s.csBin c 1 = v → s.csBaseline c = v →
        (BumpCapSenseBin cfg ticks s).csBaseline c = v) := by
  refine ⟨rfl, by simp [BumpCapSenseBin, hc], ?_, ?_, ?_⟩
  · simp [BumpCapSenseBin, hc]
  · simp [BumpCapSenseBin]
  · intro v h0 h1 hb
    simp [BumpCapSenseBin, hc, h0, h1]

/-- C4 witness: instantiating the rotation theorem at a single enabled
channel whose bins and Baseline all hold 5 and whose latest reading is 7:
the rotation moves to bin 1, keeps the Baseline at 5, seeds the new bin
with 7 and clears its flag. -/
theorem c4_bump_bin_rotation_witness :
    (BumpCapSenseBin
        { CS_MIN_THRESHOLD := 2, filterLength := 2, DEBOUNCE_POLLS := 3,
          TICKS_PER_SEC := 125, enabled := fun c => c = 0, FIRST := 0, LAST := 0 }
        3
        { currentCapSenseChannel := 0, csReadings := fun _ => 7,
          csBaseline := fun _ => 5, csBin := fun _ _ => 5, csCurrentBin := 0,
          csDownInBin := fun _ => true, csLastBinTicks := 0,
          csLastButtonTicks := 0, csLastDownPolls := 10, csHoldingButton := none,
          csButton := none, csMin := fun _ => 65535, csThresholds := fun _ => 10,
          csAutoCalibrateState := acDone, csCalButton := 0, timesThruButtons := 0,
          ticksStateStart := 0, csMaxWaiting := fun _ => 0,
          csMaxHolding := fun _ _ => 0, csMaxOthers := fun _ => 0,
          csResults := fun _ => acrFail }).csBaseline 0 = 5 := by
  have h := c4_bump_bin_rotation
    { CS_MIN_THRESHOLD := 2, filterLength := 2, DEBOUNCE_POLLS := 3,
      TICKS_PER_SEC := 125, enabled := fun c => c = 0, FIRST := 0, LAST := 0 }
    3
    { currentCapSenseChannel := 0, csReadings := fun _ => 7,
      csBaseline := fun _ => 5, csBin := fun _ _ => 5, csCurrentBin := 0,
      csDownInBin := fun _ => true, csLastBinTicks := 0,
      csLastButtonTicks := 0, csLastDownPolls := 10, csHoldingButton := none,
      csButton := none, csMin := fun _ => 65535, csThresholds := fun _ => 10,
      csAutoCalibrateState := acDone, csCalButton := 0, timesThruButtons := 0,
      ticksStateStart := 0, csMaxWaiting := fun _ => 0,
      csMaxHolding := fun _ _ => 0, csMaxOthers := fun _ => 0,
      csResults := fun _ => acrFail }
    0 (by decide)
  exact h.2.2.2.2 5 rfl rfl rfl

theorem isrEdgeLogic_csMin (cfg : Config) (ticks reading threshold ch : Nat)
    (s : State) :
    (isrEdgeLogic cfg ticks reading threshold ch s).csMin = s.csMin := by
  simp only [isrEdgeLogic]
  split_ifs <;> rfl

/-- Pipeline view of the calibration minimum: after one interrupt body the
per-channel minimum array is changed only when the calibration machine is
in the acPressAndReleaseButton state, and then only at the scanned
channel, where the filtered reading is min-accumulated. -/
theorem capSenseISR_csMin (cfg : Config) (raw ticks : Nat) (s : State) (c : Nat) :
    (capSenseISR cfg raw ticks s).csMin c =
      if s.csAutoCalibrateState = acPressAndReleaseButton ∧
          c = s.currentCapSenseChannel then
        min (s.csMin c)
          (filterStep cfg.filterLength (s.csReadings s.currentCapSenseChannel) raw)
      else s.csMin c := by
  simp only [capSenseISR]
  rw [(isrMaybeRotateBin_preserves cfg ticks _).2.2.2.1]
  generalize hs2 :
    isrEdgeLogic cfg ticks
      (filterStep cfg.filterLength (s.csReadings s.currentCapSenseChannel) raw)
      (liveThreshold cfg.CS_MIN_THRESHOLD (s.csBaseline s.currentCapSenseChannel)
        (s.csThresholds s.currentCapSenseChannel % BYTE))
      s.currentCapSenseChannel
      (isrStoreReading
        (filterStep cfg.filterLength (s.csReadings s.currentCapSenseChannel) raw)
        s.currentCapSenseChannel s) = s2
  have hst2 : s2.csAutoCalibrateState = s.csAutoCalibrateState := by
    rw [← hs2]
    exact (isrEdgeLogic_currentBin cfg ticks _ _ _ _).2
  have hmin2 : s2.csMin = s.csMin := by
    rw [← hs2]
    exact isrEdgeLogic_csMin cfg ticks _ _ _ _
  have h3 := isrBinUpdate_preserves cfg ticks
    (filterStep cfg.filterLength (s.csReadings s.currentCapSenseChannel) raw)
    s.currentCapSenseChannel s2
  unfold isrCalibTrackMin
  rw [h3.2.2.2.2.2.2.1, h3.2.2.2.2.2.1, hst2, hmin2]
  by_cases hst : s.csAutoCalibrateState = acPressAndReleaseButton
  · by_cases hc : c = s.currentCapSenseChannel
    · simp [hst, hc, Function.update]
    · simp [hst, hc, Function.update, fun h => hc h]
  · simp [hst, h3.2.2.2.2.2.1, hmin2]

/-- WaitIdle expiry, CapSense.c lines 385-399: once the settle duration
has elapsed in the acPressNothing state, the poll folds
Baseline - csMin into csMaxWaiting for every channel from FIRST to LAST,
then transitions to acPressAndReleaseButton (leaving the target channel
untouched) on the first idle pass, and otherwise to acDone, running the
Done-phase computation in the same poll and returning false. -/
theorem continueCalibrate_pressNothing (cfg : Config) (ticks : Nat) (s : State)
    (hst : s.csAutoCalibrateState = acPressNothing)
    (helap : byteSub ticks s.ticksStateStart > SETTLE_TICKS) :
    (∀ c, cfg.FIRST ≤ c → c ≤ cfg.LAST →
      (CapSenseContinueCalibrate cfg ticks s).1.csMaxWaiting c =
        max (s.csMaxWaiting c) (wordSub (s.csBaseline c) (s.csMin c))) ∧
    (s.timesThruButtons = 0 →
      (CapSenseContinueCalibrate cfg ticks s).1.csAutoCalibrateState =
          acPressAndReleaseButton ∧
        (CapSenseContinueCalibrate cfg ticks s).1.csCalButton = s.csCalButton ∧
        (CapSenseContinueCalibrate cfg ticks s).2 = true) ∧
    (s.timesThruButtons ≠ 0 →
      (CapSenseContinueCalibrate cfg ticks s).1.csAutoCalibrateState = acDone ∧
        (CapSenseContinueCalibrate cfg ticks s).2 = false) := by
  by_cases ht : s.timesThruButtons = 0
  · refine ⟨?_, ?_, fun hc => absurd ht hc⟩
    · intro c hc1 hc2
      simp [CapSenseContinueCalibrate, GetCapSenseButton, hst, helap, ht,
        EnterState, hc1, hc2]
    · intro _
      refine ⟨?_, ?_, ?_⟩ <;>
        simp [CapSenseContinueCalibrate, GetCapSenseButton, hst, helap, ht,
          EnterState]
  · refine ⟨?_, fun hc => absurd hc ht, fun _ => ⟨?_, ?_⟩⟩
    · intro c hc1 hc2
      simp [CapSenseContinueCalibrate, GetCapSenseButton, hst, helap, ht,
        EnterState, acDoneUpdate, hc1, hc2]
    · simp [CapSenseContinueCalibrate, GetCapSenseButton, hst, helap, ht,
        EnterState, acDoneUpdate]
    · simp [CapSenseContinueCalibrate, GetCapSenseButton, hst, helap, ht,
        EnterState, acDoneUpdate]

/-- C8 counterexample: an interrupt body executed while the calibration
machine is in the WaitIdle state (acPressNothing) leaves csMin of the
scanned channel at 100 even though the filtered reading 50 is smaller, so
the running minimum is not tracked during the idle window (the tracking
guard in CapSense.c line 297 demands acPressAndReleaseButton). -/
theorem c8_counterexample_no_idle_tracking :
    (capSenseISR
        { CS_MIN_THRESHOLD := 2, filterLength := 2, DEBOUNCE_POLLS := 3,
          TICKS_PER_SEC := 125, enabled := fun c => c = 0, FIRST := 0, LAST := 0 }
        60 9
        { currentCapSenseChannel := 0, csReadings := fun _ => 40,
          csBaseline := fun _ => 200, csBin := fun _ _ => 10, csCurrentBin := 0,
          csDownInBin := fun _ => false, csLastBinTicks := 9,
          csLastButtonTicks := 0, csLastDownPolls := 10, csHoldingButton := none,
          csButton := none, csMin := fun _ => 100, csThresholds := fun _ => 100,
          csAutoCalibrateState := acPressNothing, csCalButton := 0,
          timesThruButtons := 0, ticksStateStart := 9, csMaxWaiting := fun _ => 0,
          csMaxHolding := fun _ _ => 0, csMaxOthers := fun _ => 0,
          csResults := fun _ => acrFail }).csMin 0 = 100 ∧
      filterStep 2 40 60 = 50 ∧ (50 : Nat) < 100 := by
  refine ⟨by decide, by decide, by decide⟩

/-- C8 amended: during calibration the per-channel running minimum is
accumulated by the measurement pipeline only while the machine is in the
PressEachButton state (acPressAndReleaseButton), not during the idle
window; on expiry of the settle duration in WaitIdle (acPressNothing) each
channel\'s idle-excursion accumulator is max-accumulated with
Baseline - csMin (so the minimum folded there is the one carried over from
the preceding state), and the protocol then proceeds to
acPressAndReleaseButton with its target channel unchanged (the Start phase
set it to the first enabled channel) if this was the first idle pass, and
otherwise to acDone. -/
theorem c8_idle_window_behaviour (cfg : Config) (raw ticks : Nat) (s : State) :
    (∀ c, (capSenseISR cfg raw ticks s).csMin c =
      if s.csAutoCalibrateState = acPressAndReleaseButton ∧
          c = s.currentCapSenseChannel then
        min (s.csMin c)
          (filterStep cfg.filterLength (s.csReadings s.currentCapSenseChannel) raw)
      else s.csMin c) ∧
    (s.csAutoCalibrateState = acPressNothing →
      byteSub ticks s.ticksStateStart > SETTLE_TICKS →
      (∀ c, cfg.FIRST ≤ c → c ≤ cfg.LAST →
        (CapSenseContinueCalibrate cfg ticks s).1.csMaxWaiting c =
          max (s.csMaxWaiting c) (wordSub (s.csBaseline c) (s.csMin c))) ∧
      (s.timesThruButtons = 0 →
        (CapSenseContinueCalibrate cfg ticks s).1.csAutoCalibrateState =
            acPressAndReleaseButton ∧
          (CapSenseContinueCalibrate cfg ticks s).1.csCalButton = s.csCalButton ∧
          (CapSenseContinueCalibrate cfg ticks s).2 = true) ∧
      (s.timesThruButtons ≠ 0 →
        (CapSenseContinueCalibrate cfg ticks s).1.csAutoCalibrateState = acDone ∧
          (CapSenseContinueCalibrate cfg ticks s).2 = false)) := by
  exact ⟨capSenseISR_csMin cfg raw ticks s,
    fun hst helap => continueCalibrate_pressNothing cfg ticks s hst helap⟩

/-- C8 witness: instantiating the idle-window theorem at a state in
acPressNothing on its first pass, with the settle duration elapsed
(byteSub 9 0 = 9 > 3), baseline 200 and carried minimum 150: the idle
accumulator of channel 0 becomes max(0, 200 - 150) = 50 and the machine
moves to acPressAndReleaseButton. -/
theorem c8_idle_window_witness :
    (CapSenseContinueCalibrate
        { CS_MIN_THRESHOLD := 2, filterLength := 2, DEBOUNCE_POLLS := 3,
          TICKS_PER_SEC := 125, enabled := fun c => c = 0, FIRST := 0, LAST := 0 }
        9
        { currentCapSenseChannel := 0, csReadings := fun _ => 160,
          csBaseline := fun _ => 200, csBin := fun _ _ => 200, csCurrentBin := 0,
          csDownInBin := fun _ => false, csLastBinTicks := 9,
          csLastButtonTicks := 0, csLastDownPolls := 10, csHoldingButton := none,
          csButton := none, csMin := fun _ => 150, csThresholds := fun _ => 10,
          csAutoCalibrateState := acPressNothing, csCalButton := 0,
          timesThruButtons := 0, ticksStateStart := 0, csMaxWaiting := fun _ => 0,
          csMaxHolding := fun _ _ => 0, csMaxOthers := fun _ => 0,
          csResults := fun _ => acrFail }).1.csMaxWaiting 0 = 50 ∧
      (CapSenseContinueCalibrate
        { CS_MIN_THRESHOLD := 2, filterLength := 2, DEBOUNCE_POLLS := 3,
          TICKS_PER_SEC := 125, enabled := fun c => c = 0, FIRST := 0, LAST := 0 }
        9
        { currentCapSenseChannel := 0, csReadings := fun _ => 160,
          csBaseline := fun _ => 200, csBin := fun _ _ => 200, csCurrentBin := 0,
          csDownInBin := fun _ => false, csLastBinTicks := 9,
          csLastButtonTicks := 0, csLastDownPolls := 10, csHoldingButton := none,
          csButton := none, csMin := fun _ => 150, csThresholds := fun _ => 10,
          csAutoCalibrateState := acPressNothing, csCalButton := 0,
          timesThruButtons := 0, ticksStateStart := 0, csMaxWaiting := fun _ => 0,
          csMaxHolding := fun _ _ => 0, csMaxOthers := fun _ => 0,
          csResults := fun _ => acrFail }).1.csAutoCalibrateState =
        acPressAndReleaseButton := by
  have h := c8_idle_window_behaviour
    { CS_MIN_THRESHOLD := 2, filterLength := 2, DEBOUNCE_POLLS := 3,
      TICKS_PER_SEC := 125, enabled := fun c => c = 0, FIRST := 0, LAST := 0 }
    0 9
    { currentCapSenseChannel := 0, csReadings := fun _ => 160,
      csBaseline := fun _ => 200, csBin := fun _ _ => 200, csCurrentBin := 0,
      csDownInBin := fun _ => false, csLastBinTicks := 9,
      csLastButtonTicks := 0, csLastDownPolls := 10, csHoldingButton := none,
      csButton := none, csMin := fun _ => 150, csThresholds := fun _ => 10,
      csAutoCalibrateState := acPressNothing, csCalButton := 0,
      timesThruButtons := 0, ticksStateStart := 0, csMaxWaiting := fun _ => 0,
      csMaxHolding := fun _ _ => 0, csMaxOthers := fun _ => 0,
      csResults := fun _ => acrFail }
  have h2 := h.2 rfl (by decide)
  exact ⟨h2.1 0 (by decide) (by decide), (h2.2.1 rfl).1⟩

/-- C6 counterexample: for the channel with own-press excursions
{40, 50, 45} over the 3 passes, idle excursion 5, cross-talk excursion 38
and CS_MIN_THRESHOLD = 2, the Done phase rates the channel acrFail (since
38 + 4 = 42 >= 40), but the threshold it assigns is
maxOwnPress/2 + idleExcursion/2 - 2 = 25 + 2 - 2 = 25, which differs from
the midpoint of the weakest and strongest own-press excursions minus
CS_MIN_THRESHOLD, (40 + 50)/2 - 2 = 43, asserted by the claim. -/
theorem c6_counterexample_fail_threshold :
    calibrateChannelDone 2 5 38
        (fun i => if i = 0 then 40 else if i = 1 then 50 else 45) =
      (acrFail, 25) ∧ (25 : Nat) ≠ (40 + 50) / 2 - 2 := by
  refine ⟨by decide, by decide⟩

/-- C6 amended: in the Done phase an enabled channel in the calibration
range is rated acrFail exactly when its cross-talk excursion plus twice
CS_MIN_THRESHOLD is not below its minimum own-press excursion, or its idle
excursion plus twice CS_MIN_THRESHOLD is not below it (sums taken in
16-bit arithmetic); a failed channel still gets a threshold, namely half
its strongest own-press excursion plus half its idle excursion, minus
CS_MIN_THRESHOLD (not the midpoint of its weakest and strongest own-press
excursions minus CS_MIN_THRESHOLD).  In particular channel A with
cross-talk 38, minimum own press 40 and CS_MIN_THRESHOLD = 2 is rated
acrFail. -/
theorem c6_fail_rating (cfg : Config) (s : State) (c : Nat)
    (h1 : cfg.FIRST ≤ c) (h2 : c ≤ cfg.LAST) (hen : cfg.enabled c = true) :
    ((acDoneUpdate cfg s).csResults c = acrFail ↔
        (s.csMaxOthers c + 2 * cfg.CS_MIN_THRESHOLD) % WORD ≥
          min (min (min MAX_CS_READING (s.csMaxHolding c 0)) (s.csMaxHolding c 1))
            (s.csMaxHolding c 2) ∨
        (s.csMaxWaiting c + 2 * cfg.CS_MIN_THRESHOLD) % WORD ≥
          min (min (min MAX_CS_READING (s.csMaxHolding c 0)) (s.csMaxHolding c 1))
            (s.csMaxHolding c 2)) ∧
      (((s.csMaxOthers c + 2 * cfg.CS_MIN_THRESHOLD) % WORD ≥
          min (min (min MAX_CS_READING (s.csMaxHolding c 0)) (s.csMaxHolding c 1))
            (s.csMaxHolding c 2) ∨
        (s.csMaxWaiting c + 2 * cfg.CS_MIN_THRESHOLD) % WORD ≥
          min (min (min MAX_CS_READING (s.csMaxHolding c 0)) (s.csMaxHolding c 1))
            (s.csMaxHolding c 2)) →
        (acDoneUpdate cfg s).csThresholds c =
          wordSub
            (max (max (max 0 (s.csMaxHolding c 0)) (s.csMaxHolding c 1))
              (s.csMaxHolding c 2) / 2 + s.csMaxWaiting c / 2)
            cfg.CS_MIN_THRESHOLD) := by
  obtain ⟨e1, e2⟩ := acDoneUpdate_fields cfg s c h1 h2 hen
  rw [e1, e2]
  have h := calibrateChannelDone_spec cfg.CS_MIN_THRESHOLD (s.csMaxWaiting c)
    (s.csMaxOthers c) (s.csMaxHolding c)
  exact ⟨h.1, h.2.1⟩

/-- C6 witness: two enabled channels with channel 0 having cross-talk
excursion 38, own-press excursions {40, 41, 45} and idle excursion 5, with
CS_MIN_THRESHOLD = 2: channel 0 is rated acrFail. -/
theorem c6_fail_rating_witness :
    (acDoneUpdate
        { CS_MIN_THRESHOLD := 2, filterLength := 2, DEBOUNCE_POLLS := 3,
          TICKS_PER_SEC := 125, enabled := fun c => c ≤ 1, FIRST := 0, LAST := 1 }
        { currentCapSenseChannel := 0, csReadings := fun _ => 40,
          csBaseline := fun _ => 200, csBin := fun _ _ => 10, csCurrentBin := 0,
          csDownInBin := fun _ => false, csLastBinTicks := 0,
          csLastButtonTicks := 0, csLastDownPolls := 10, csHoldingButton := none,
          csButton := none, csMin := fun _ => 65535, csThresholds := fun _ => 10,
          csAutoCalibrateState := acDone, csCalButton := 0, timesThruButtons := 3,
          ticksStateStart := 0, csMaxWaiting := fun _ => 5,
          csMaxHolding := fun c i =>
            if c = 0 then (if i = 0 then 40 else if i = 1 then 41 else 45) else 50,
          csMaxOthers := fun c => if c = 0 then 38 else 0,
          csResults := fun _ => acrGreat }).csResults 0 = acrFail := by
  have h := c6_fail_rating
    { CS_MIN_THRESHOLD := 2, filterLength := 2, DEBOUNCE_POLLS := 3,
      TICKS_PER_SEC := 125, enabled := fun c => c ≤ 1, FIRST := 0, LAST := 1 }
    { currentCapSenseChannel := 0, csReadings := fun _ => 40,
      csBaseline := fun _ => 200, csBin := fun _ _ => 10, csCurrentBin := 0,
      csDownInBin := fun _ => false, csLastBinTicks := 0,
      csLastButtonTicks := 0, csLastDownPolls := 10, csHoldingButton := none,
      csButton := none, csMin := fun _ => 65535, csThresholds := fun _ => 10,
      csAutoCalibrateState := acDone, csCalButton := 0, timesThruButtons := 3,
      ticksStateStart := 0, csMaxWaiting := fun _ => 5,
      csMaxHolding := fun c i =>
        if c = 0 then (if i = 0 then 40 else if i = 1 then 41 else 45) else 50,
      csMaxOthers := fun c => if c = 0 then 38 else 0,
      csResults := fun _ => acrGreat }
    0 (by decide) (by decide) (by decide)
  exact h.1.mpr (by decide)

/-- C7: in the Done phase an enabled channel in the calibration range that
does not fail gets the threshold minOwnPress - CS_MIN_THRESHOLD (in 16-bit
arithmetic, and as plain subtraction whenever the idle sum does not wrap)
and is rated acrGreat exactly when neither its cross-talk nor its idle
excursion comes within the margin checks of minOwnPress, and acrOK exactly
when one of them does. -/
theorem c7_pass_rating (cfg : Config) (s : State) (c : Nat)
    (h1 : cfg.FIRST ≤ c) (h2 : c ≤ cfg.LAST) (hen : cfg.enabled c = true)
    (hnf : ¬((s.csMaxOthers c + 2 * cfg.CS_MIN_THRESHOLD) % WORD ≥
        min (min (min MAX_CS_READING (s.csMaxHolding c 0)) (s.csMaxHolding c 1))
          (s.csMaxHolding c 2) ∨
      (s.csMaxWaiting c + 2 * cfg.CS_MIN_THRESHOLD) % WORD ≥
        min (min (min MAX_CS_READING (s.csMaxHolding c 0)) (s.csMaxHolding c 1))
          (s.csMaxHolding c 2))) :
    (acDoneUpdate cfg s).csThresholds c =
        wordSub
          (min (min (min MAX_CS_READING (s.csMaxHolding c 0)) (s.csMaxHolding c 1))
            (s.csMaxHolding c 2))
          cfg.CS_MIN_THRESHOLD ∧
      (s.csMaxWaiting c + 2 * cfg.CS_MIN_THRESHOLD < WORD →
        (acDoneUpdate cfg s).csThresholds c =
          min (min (min MAX_CS_READING (s.csMaxHolding c 0)) (s.csMaxHolding c 1))
            (s.csMaxHolding c 2) - cfg.CS_MIN_THRESHOLD) ∧
      ((acDoneUpdate cfg s).csResults c = acrGreat ↔
        ¬(s.csMaxOthers c >
            min (min (min MAX_CS_READING (s.csMaxHolding c 0)) (s.csMaxHolding c 1))
              (s.csMaxHolding c 2) ∨
          s.csMaxOthers c >
            wordSub
              (min (min (min MAX_CS_READING (s.csMaxHolding c 0))
                (s.csMaxHolding c 1)) (s.csMaxHolding c 2))
              (2 * cfg.CS_MIN_THRESHOLD) ∨
          s.csMaxWaiting c >
            min (min (min MAX_CS_READING (s.csMaxHolding c 0)) (s.csMaxHolding c 1))
              (s.csMaxHolding c 2) ∨
          s.csMaxWaiting c >
            wordSub
              (min (min (min MAX_CS_READING (s.csMaxHolding c 0))
                (s.csMaxHolding c 1)) (s.csMaxHolding c 2))
              cfg.CS_MIN_THRESHOLD)) ∧
      ((acDoneUpdate cfg s).csResults c = acrOK ↔
        (s.csMaxOthers c >
            min (min (min MAX_CS_READING (s.csMaxHolding c 0)) (s.csMaxHolding c 1))
              (s.csMaxHolding c 2) ∨
          s.csMaxOthers c >
            wordSub
              (min (min (min MAX_CS_READING (s.csMaxHolding c 0))
                (s.csMaxHolding c 1)) (s.csMaxHolding c 2))
              (2 * cfg.CS_MIN_THRESHOLD) ∨
          s.csMaxWaiting c >
            min (min (min MAX_CS_READING (s.csMaxHolding c 0)) (s.csMaxHolding c 1))
              (s.csMaxHolding c 2) ∨
          s.csMaxWaiting c >
            wordSub
              (min (min (min MAX_CS_READING (s.csMaxHolding c 0))
                (s.csMaxHolding c 1)) (s.csMaxHolding c 2))
              cfg.CS_MIN_THRESHOLD)) := by
  obtain ⟨e1, e2⟩ := acDoneUpdate_fields cfg s c h1 h2 hen
  rw [e1, e2]
  have h := (calibrateChannelDone_spec cfg.CS_MIN_THRESHOLD (s.csMaxWaiting c)
    (s.csMaxOthers c) (s.csMaxHolding c)).2.2 hnf
  refine ⟨h.1, ?_, h.2.1, h.2.2⟩
  intro hw
  rw [h.1]
  have hle : min (min (min MAX_CS_READING (s.csMaxHolding c 0)) (s.csMaxHolding c 1))
      (s.csMaxHolding c 2) ≤ MAX_CS_READING :=
    le_trans (min_le_left _ _) (le_trans (min_le_left _ _) (min_le_left _ _))
  have hwlt : MAX_CS_READING < WORD := by
    unfold MAX_CS_READING WORD
    omega
  have hmod : (s.csMaxWaiting c + 2 * cfg.CS_MIN_THRESHOLD) % WORD =
      s.csMaxWaiting c + 2 * cfg.CS_MIN_THRESHOLD := Nat.mod_eq_of_lt hw
  rw [hmod] at hnf
  push_neg at hnf
  exact wordSub_eq_sub _ _ (by omega) (by omega)

/-- C7 witness: the spec\'s scenario: a single enabled channel with idle
excursion 5, own-press excursions {40, 45, 50} over the 3 passes, no
cross-talk, and CS_MIN_THRESHOLD = 2: the channel is rated acrGreat and
its threshold is 40 - 2 = 38. -/
theorem c7_pass_rating_witness :
    (acDoneUpdate
        { CS_MIN_THRESHOLD := 2, filterLength := 2, DEBOUNCE_POLLS := 3,
          TICKS_PER_SEC := 125, enabled := fun c => c = 0, FIRST := 0, LAST := 0 }
        { currentCapSenseChannel := 0, csReadings := fun _ => 40,
          csBaseline := fun _ => 200, csBin := fun _ _ => 10, csCurrentBin := 0,
          csDownInBin := fun _ => false, csLastBinTicks := 0,
          csLastButtonTicks := 0, csLastDownPolls := 10, csHoldingButton := none,
          csButton := none, csMin := fun _ => 65535, csThresholds := fun _ => 10,
          csAutoCalibrateState := acDone, csCalButton := 0, timesThruButtons := 3,
          ticksStateStart := 0, csMaxWaiting := fun _ => 5,
          csMaxHolding := fun _ i => if i = 0 then 40 else if i = 1 then 45 else 50,
          csMaxOthers := fun _ => 0,
          csResults := fun _ => acrFail }).csThresholds 0 = 38 ∧
      (acDoneUpdate
        { CS_MIN_THRESHOLD := 2, filterLength := 2, DEBOUNCE_POLLS := 3,
          TICKS_PER_SEC := 125, enabled := fun c => c = 0, FIRST := 0, LAST := 0 }
        { currentCapSenseChannel := 0, csReadings := fun _ => 40,
          csBaseline := fun _ => 200, csBin := fun _ _ => 10, csCurrentBin := 0,
          csDownInBin := fun _ => false, csLastBinTicks := 0,
          csLastButtonTicks := 0, csLastDownPolls := 10, csHoldingButton := none,
          csButton := none, csMin := fun _ => 65535, csThresholds := fun _ => 10,
          csAutoCalibrateState := acDone, csCalButton := 0, timesThruButtons := 3,
          ticksStateStart := 0, csMaxWaiting := fun _ => 5,
          csMaxHolding := fun _ i => if i = 0 then 40 else if i = 1 then 45 else 50,
          csMaxOthers := fun _ => 0,
          csResults := fun _ => acrFail }).csResults 0 = acrGreat := by
  have h := c7_pass_rating
    { CS_MIN_THRESHOLD := 2, filterLength := 2, DEBOUNCE_POLLS := 3,
      TICKS_PER_SEC := 125, enabled := fun c => c = 0, FIRST := 0, LAST := 0 }
    { currentCapSenseChannel := 0, csReadings := fun _ => 40,
      csBaseline := fun _ => 200, csBin := fun _ _ => 10, csCurrentBin := 0,
      csDownInBin := fun _ => false, csLastBinTicks := 0,
      csLastButtonTicks := 0, csLastDownPolls := 10, csHoldingButton := none,
      csButton := none, csMin := fun _ => 65535, csThresholds := fun _ => 10,
      csAutoCalibrateState := acDone, csCalButton := 0, timesThruButtons := 3,
      ticksStateStart := 0, csMaxWaiting := fun _ => 5,
      csMaxHolding := fun _ i => if i = 0 then 40 else if i = 1 then 45 else 50,
      csMaxOthers := fun _ => 0,
      csResults := fun _ => acrFail }
    0 (by decide) (by decide) (by decide) (by decide)
  exact ⟨h.2.1 (by decide), h.2.2.1.mpr (by decide)⟩

/-- C5 counterexample: with the raw count held constant at 100 and the
filtered reading at 99, one filter step returns 99 again (99 is a fixed
point strictly below the raw value), so the reading never converges to the
raw value: even after 64 = FILTER_LENGTH * log2(range) cycles it is still
99, refuting convergence to r. -/
theorem c5_counterexample_stuck_below_raw :
    filterStep FILTER_LENGTH 99 100 = 99 ∧
      (fun x => filterStep FILTER_LENGTH x 100)^[64] 99 = 99 ∧ (99 : Nat) ≠ 100 := by
  refine ⟨by decide, ?_, by decide⟩
  have h : filterStep FILTER_LENGTH 99 100 = 99 := by decide
  exact iterate_fixed_point (fun x => filterStep FILTER_LENGTH x 100) 99 h 64

/-- C5 amended: with the raw count held constant at r and the filtered
reading starting at x at or below r, iterating the filter step converges
within r - x cycles to a fixed point y with r - FILTER_LENGTH < y <= r and
thereafter stays fixed there; the reading r itself is a fixed point
(idempotence at steady state), but for FILTER_LENGTH >= 2 the fixed point
reached can be strictly below r (for example r - 1 is also fixed), because
the integer division truncates updates smaller than FILTER_LENGTH to
zero. -/
theorem c5_filter_converges_to_band (len x r : Nat) (hL : 1 ≤ len)
    (hx : x ≤ r) (hr : r < WORD) :
    filterStep len ((fun y => filterStep len y r)^[r - x] x) r =
        (fun y => filterStep len y r)^[r - x] x ∧
      x ≤ (fun y => filterStep len y r)^[r - x] x ∧
      (fun y => filterStep len y r)^[r - x] x ≤ r ∧
      r - (fun y => filterStep len y r)^[r - x] x < len ∧
      (∀ m : Nat,
        (fun y => filterStep len y r)^[m] ((fun y => filterStep len y r)^[r - x] x) =
          (fun y => filterStep len y r)^[r - x] x) ∧
      filterStep len r r = r ∧
      (2 ≤ len → 1 ≤ r → filterStep len (r - 1) r = r - 1) := by
  have hfix := filterStep_iter_fixed len r hL hr (r - x) x hx (le_refl _)
  have hbnd := filterStep_iter_bounds len r hr (r - x) x hx
  refine ⟨hfix, hbnd.1, hbnd.2, ?_, ?_, ?_, ?_⟩
  · exact ((filterStep_fixed_iff len _ r hL hbnd.2 hr).mp hfix)
  · intro m
    exact iterate_fixed_point (fun y => filterStep len y r) _ hfix m
  · exact (filterStep_fixed_iff len r r hL (le_refl r) hr).mpr (by omega)
  · intro h2 h1
    exact (filterStep_fixed_iff len (r - 1) r hL (by omega) hr).mpr (by omega)

/-- C5 witness: instantiating the amended convergence theorem at
FILTER_LENGTH = 4, raw value 100 and starting reading 0 gives a fixed
point of the filter within 100 cycles lying in the band (96, 100]. -/
theorem c5_filter_converges_witness :
    filterStep 4 ((fun y => filterStep 4 y 100)^[100 - 0] 0) 100 =
        (fun y => filterStep 4 y 100)^[100 - 0] 0 ∧
      100 - (fun y => filterStep 4 y 100)^[100 - 0] 0 < 4 := by
  have h := c5_filter_converges_to_band 4 0 100 (by decide) (by decide) (by decide)
  exact ⟨h.1, h.2.2.2.1⟩

/-- C9: if the timer peripheral flags an overrun (T0IF set again before
the service routine finished), CapSenseISRDone restarts both timing
counters from a clean state — TMR0 and both TMR1 bytes are cleared, the
flag is reset and TMR1 is left running — discarding the in-progress
count, so the partial count never becomes a raw input of the filter; with
no overrun the timer state is untouched.  The function returns nothing, so
the condition is not surfaced to the caller. -/
theorem c9_overrun_discard (t : TimerState) :
    (t.t0if = true →
      CapSenseISRDone t =
        { tmr0 := 0, tmr1l := 0, tmr1h := 0, tmr1on := true, t0if := false }) ∧
      (t.t0if = false → CapSenseISRDone t = t) := by
  constructor <;> intro h <;> simp [CapSenseISRDone, RestartCapSenseTimer, h]

/-- C9 witness: a timer state mid-count with the overrun flag raised is
reset to the clean restarted state. -/
theorem c9_overrun_discard_witness :
    CapSenseISRDone
        { tmr0 := 7, tmr1l := 3, tmr1h := 2, tmr1on := true, t0if := true } =
      { tmr0 := 0, tmr1l := 0, tmr1h := 0, tmr1on := true, t0if := false } :=
  (c9_overrun_discard
    { tmr0 := 7, tmr1l := 3, tmr1h := 2, tmr1on := true, t0if := true }).1 rfl

/-- C10: every call to CapSenseContinueCalibrate, whatever the calibration
phase and whether or not a settle wait is still pending, first consumes
the one-slot pending-button queue through GetCapSenseButton and never
refills it, so after any such call csButton is none: a press queued while
calibration is being polled is discarded, never delivered to the
application layer. -/
theorem c10_continue_calibrate_clears_pending (cfg : Config) (ticks : Nat)
    (s : State) :
    (CapSenseContinueCalibrate cfg ticks s).1.csButton = none := by
  cases hst : s.csAutoCalibrateState <;>
    simp only [CapSenseContinueCalibrate, GetCapSenseButton, hst] <;>
    split_ifs <;>
    simp [EnterState, acDoneUpdate]

end CapSense
